import Mathlib

/-!
# Verification of `extract_nike_data.py`

A shallow embedding of the crawler script `extract_nike_data.py` together
with proofs about its pagination loop (`fetch_nike_products`), its response
normalizer (`parse_response`), its concept-id resolver (`extract_concept_ids`),
its per-category pipeline (`process_single_url`) and its persistence step
(`update_database`).

Conventions of the embedding:
* SQLite values bound through the Python driver are modelled by `Val`;
  the constructor `Val.unsupported` stands for a Python object that the
  `sqlite3` driver cannot bind, which is the row-value-determined way a
  single `cursor.execute` can raise.
* The transaction discipline of `update_database` (one connection, a
  single `conn.commit()` at the end of the `try` block, `conn.rollback()`
  in the `except` block) is embedded by running all writes on a working
  state and committing it only when every write succeeded; on a failure
  the committed state is the initial one.
* A Python function that may either return or raise is embedded with
  `PyResult`; a `try/except` block becomes an explicit match on it.
* Dates/timestamps are opaque strings, as they are in the SQLite schema.
-/

set_option autoImplicit false

namespace NikeCrawler

/-- A value bound as a SQL parameter by the Python `sqlite3` driver.
`unsupported` models a Python object the driver cannot bind (binding it
raises `InterfaceError`); the other constructors are storable. -/
inductive Val where
  | str : String → Val
  | num : Int → Val
  | null : Val
  | unsupported : Val
  deriving DecidableEq, Repr

/-- `true` for values the `sqlite3` driver can bind as a SQL parameter. -/
def Val.bindable : Val → Bool
  | .unsupported => false
  | _ => true

/-- One row of the dataframe handed to `update_database`: the eight columns
produced by `parse_response` plus the `category` column added by
`fetch_nike_products`. -/
structure InputRow where
  productCode : Val
  badgeLabel : Val
  copyTitle : Val
  copySubTitle : Val
  pricesCurrency : Val
  pricesCurrentPrice : Val
  pdpUrlUrl : Val
  portraitURL : Val
  category : Val
  deriving DecidableEq, Repr

/-- A stored row of the `products` table
(`product_code TEXT PRIMARY KEY, title, subtitle, category, image_url, url,
created_at DATETIME DEFAULT CURRENT_TIMESTAMP`). -/
structure ProductRow where
  product_code : Val
  title : Val
  subtitle : Val
  category : Val
  image_url : Val
  url : Val
  created_at : String
  deriving DecidableEq, Repr

/-- A stored row of the `price_history` table
(`id INTEGER PRIMARY KEY AUTOINCREMENT, product_code, price, timestamp`). -/
structure PriceRow where
  id : Nat
  product_code : Val
  price : Val
  timestamp : String
  deriving DecidableEq, Repr

/-- The database state: the two tables plus the AUTOINCREMENT counter of
`price_history`. -/
structure DBState where
  products : List ProductRow
  price_history : List PriceRow
  next_id : Nat
  deriving DecidableEq, Repr

/-- SQLite `INSERT OR REPLACE` conflict test on the `product_code`
primary key: two stored key values conflict when they are equal and not
NULL (NULL primary keys of TEXT affinity never conflict in SQLite). -/
def conflicts (a b : Val) : Bool :=
  a = b && !(a = Val.null)

/-- The six parameters bound by the `INSERT OR REPLACE INTO products`
statement, in the order of the source
(`product_code, title, subtitle, category, image_url, url`). -/
def productsParams (r : InputRow) : List Val :=
  [r.productCode, r.copyTitle, r.copySubTitle, r.category, r.portraitURL, r.pdpUrlUrl]

/-- The two parameters bound by the `INSERT INTO price_history` statement
(`product_code, price`; the third parameter is the run timestamp string). -/
def priceParams (r : InputRow) : List Val :=
  [r.productCode, r.pricesCurrentPrice]

/-- The row written by `INSERT OR REPLACE INTO products`: the six bound
columns, with `created_at` omitted from the column list and therefore
taking its default `CURRENT_TIMESTAMP` (`dbNow`, the database clock). -/
def mkProductRow (dbNow : String) (r : InputRow) : ProductRow :=
  { product_code := r.productCode
    title := r.copyTitle
    subtitle := r.copySubTitle
    category := r.category
    image_url := r.portraitURL
    url := r.pdpUrlUrl
    created_at := dbNow }

/-- Effect of `INSERT OR REPLACE INTO products` on the state: any row whose
primary key conflicts with the incoming one is deleted, and the fresh row is
inserted. -/
def applyUpsert (dbNow : String) (r : InputRow) (s : DBState) : DBState :=
  { s with products :=
      s.products.filter (fun p => !(conflicts p.product_code r.productCode))
        ++ [mkProductRow dbNow r] }

/-- Effect of `INSERT INTO price_history (product_code, price, timestamp)`:
append one row carrying the run timestamp; the `id` column autoincrements. -/
def applyInsertPrice (ts : String) (r : InputRow) (s : DBState) : DBState :=
  { s with
      price_history := s.price_history ++
        [{ id := s.next_id
           product_code := r.productCode
           price := r.pricesCurrentPrice
           timestamp := ts }]
      next_id := s.next_id + 1 }

/-- A single `cursor.execute` call: it succeeds and applies `g` when every
bound parameter is bindable, and raises (carrying the offending row) when
some parameter cannot be bound. -/
def execStep (guard : InputRow → Bool) (g : InputRow → DBState → DBState)
    (r : InputRow) (s : DBState) : Except InputRow DBState :=
  if guard r then .ok (g r s) else .error r

/-- Run one `cursor.execute` per row, stopping at the first raise —
this is the Python `for` loop inside the `try` block. -/
def execLoop (f : InputRow → DBState → Except InputRow DBState) :
    List InputRow → DBState → Except InputRow DBState
  | [], s => .ok s
  | r :: rest, s =>
    match f r s with
    | .ok s1 => execLoop f rest s1
    | .error e => .error e

/-- `true` when all products-table parameters of the row are bindable. -/
def productsBindable (r : InputRow) : Bool :=
  (productsParams r).all Val.bindable

/-- `true` when all price-history parameters of the row are bindable. -/
def priceBindable (r : InputRow) : Bool :=
  (priceParams r).all Val.bindable

/-- `true` when every `cursor.execute` issued for this row succeeds. -/
def rowBindable (r : InputRow) : Bool :=
  productsBindable r && priceBindable r

/-- The body of the `try` block of `update_database`: first the upsert loop
over the products projection, then the price-history insert loop over the
same rows. -/
def runWrites (dbNow ts : String) (df : List InputRow) (s : DBState) :
    Except InputRow DBState :=
  match execLoop (execStep productsBindable (applyUpsert dbNow)) df s with
  | .ok s1 => execLoop (execStep priceBindable (applyInsertPrice ts)) df s1
  | .error e => .error e

/-- `update_database(df)`: empty dataframes are skipped; otherwise all
writes run inside one transaction, committed only if every write succeeded
(`conn.commit()` at the end of `try`), and rolled back to the initial state
on any raise (`conn.rollback()` in `except`). `dbNow` is the database
clock value used for `CURRENT_TIMESTAMP` defaults; `ts` is the run
timestamp string computed once by `datetime.now().strftime(...)`. -/
def update_database (dbNow ts : String) (df : List InputRow) (s : DBState) : DBState :=
  if df.isEmpty then s
  else
    match runWrites dbNow ts df s with
    | .ok s1 => s1
    | .error _ => s

/-! ## API responses and `parse_response` -/

/-- A raw product entry of the API payload, flattened the way
`pd.json_normalize` flattens nested dictionaries: an association list from
dotted field paths (such as `"copy.subTitle"`) to values. -/
def Record : Type := List (String × String)

instance : DecidableEq Record := by
  unfold Record; infer_instance

/-- One element of `response_json["productGroupings"]`: `i.get("products")`
is `none` when the `products` key is absent. -/
structure Grouping where
  products : Option (List Record)
  deriving DecidableEq

/-- The `pages` object of a response:
`{"totalResources": int, "next": optional string}`. -/
structure Pages where
  totalResources : Nat
  next : Option String
  deriving DecidableEq

/-- One API response payload. -/
structure ApiResponse where
  pages : Pages
  productGroupings : List Grouping
  deriving DecidableEq

/-- The eight columns selected from the normalized dataframe, in source
order. -/
def requiredColumns : List String :=
  ["productCode", "badgeLabel", "copy.title", "copy.subTitle",
   "prices.currency", "prices.currentPrice", "pdpUrl.url",
   "colorwayImages.portraitURL"]

/-- One flat output row of `parse_response`: a selected column that the
record does not carry is `none` (pandas `NaN`). -/
structure ParsedRow where
  productCode : Option String
  badgeLabel : Option String
  copyTitle : Option String
  copySubTitle : Option String
  pricesCurrency : Option String
  pricesCurrentPrice : Option String
  pdpUrlUrl : Option String
  portraitURL : Option String
  deriving DecidableEq

/-- Build an output row from a flattened record by looking up each of the
eight selected column paths; an absent path yields `none`. -/
def mkParsedRow (r : Record) : ParsedRow :=
  { productCode := r.lookup "productCode"
    badgeLabel := r.lookup "badgeLabel"
    copyTitle := r.lookup "copy.title"
    copySubTitle := r.lookup "copy.subTitle"
    pricesCurrency := r.lookup "prices.currency"
    pricesCurrentPrice := r.lookup "prices.currentPrice"
    pdpUrlUrl := r.lookup "pdpUrl.url"
    portraitURL := r.lookup "colorwayImages.portraitURL" }

/-- The list comprehension
`[i.get("products")[0] for i in response_json["productGroupings"] if i.get("products")]`:
keep the first variant of every grouping whose `products` list is present
and non-empty. -/
def firstVariants (payload : ApiResponse) : List Record :=
  payload.productGroupings.filterMap fun g =>
    match g.products with
    | some (p :: _) => some p
    | _ => none

/-- `json_normalize` materializes a column exactly when at least one input
record carries the key; selecting a column that was never materialized
raises `KeyError`. -/
def columnPresent (recs : List Record) (k : String) : Bool :=
  recs.any fun r => (r.lookup k).isSome

/-- `parse_response(response_json)`: normalize the first variants and select
the eight fixed columns. If some selected column is absent from every kept
record, the column selection raises `KeyError`, the `except` branch runs,
and the whole page yields `[]`; otherwise the result is the one-element
list `[products_df]`. -/
def parse_response (payload : ApiResponse) : List (List ParsedRow) :=
  let recs := firstVariants payload
  if requiredColumns.all (columnPresent recs) then [recs.map mkParsedRow]
  else []

/-! ## `fetch_nike_products` -/

/-- A page row tagged with the category column added by
`df["category"] = category`. -/
structure CatRow where
  row : ParsedRow
  category : String
  deriving DecidableEq

/-- `total_pages = ceil(total_products / count) - 1` with `count = 100`;
Python computes the ceiling of the (here: exact) division. -/
def total_pages (totalResources : Nat) : Int :=
  ⌈(totalResources : ℚ) / 100⌉ - 1

/-- The pagination loop of `fetch_nike_products`, abstracted over the
sequence of responses the server delivers: the initial response is always
consumed, and each further response is requested exactly when the previous
one carried a `next` field. `none` models a request that raises (the
response list is exhausted while a `next` field is still present, or the
initial request itself fails): the surrounding `except` then discards the
whole category. -/
def paginate : List ApiResponse → Option (List ApiResponse)
  | [] => none
  | r :: rest =>
    match r.pages.next with
    | none => some [r]
    | some _ => (paginate rest).map (r :: ·)

/-- `fetch_nike_products(session, url, category)` over the response
sequence `rs`: consume pages with `paginate`, parse each page, and if any
page parsed, concatenate and tag with the category; any raise inside the
`try` (including a failed page request) yields an empty dataframe. -/
def fetch_nike_products (rs : List ApiResponse) (category : String) : List CatRow :=
  match paginate rs with
  | none => []
  | some consumed =>
    let all_products := (consumed.map parse_response).flatten
    if all_products.isEmpty then []
    else (all_products.flatten).map fun row => { row := row, category := category }

/-! ## `extract_concept_ids` and the per-category pipeline -/

/-- Outcome of running a Python function: it returns a value or raises an
exception (carried as a message string). -/
inductive PyResult (α : Type) where
  | ok : α → PyResult α
  | raised : String → PyResult α
  deriving DecidableEq

/-- The `<meta name="branch:deeplink:$deeplink_path">` tag of a landing
page, as found by `soup.find`; `content` is `meta_tag.get("content")`. -/
structure MetaTag where
  content : Option String
  deriving DecidableEq

/-- A fetched category landing page, reduced to the only part the resolver
reads: the result of `soup.find("meta", {"name": "branch:deeplink:$deeplink_path"})`. -/
structure Html where
  metaTag : Option MetaTag
  deriving DecidableEq

/-- The body of `extract_concept_ids` before its `except` clause.
`parseQuery` stands for `parse_qs(urlparse(content).query)` (a library
call, out of scope of the embedding); `fetch` is the outcome of
`session.get`, whose transport failure raises. An empty `content` string is
falsy in Python, so it takes the `return None` branch; an empty parameter
list makes `[0]` raise `IndexError`. -/
def extract_concept_ids_body (parseQuery : String → List (String × List String))
    (fetch : Except String Html) : PyResult (Option String) :=
  match fetch with
  | .error e => .raised e
  | .ok page =>
    match page.metaTag with
    | none => .ok none
    | some tag =>
      match tag.content with
      | none => .ok none
      | some c =>
        if c = "" then .ok none
        else
          match (parseQuery c).lookup "conceptid" with
          | none => .ok none
          | some [] => .raised "IndexError"
          | some (v :: _) => .ok (some v)

/-- `extract_concept_ids(session, url)`: the whole body runs inside
`try: ... except Exception: return None`, so every raise is converted to
the `None` ("no identifier") signal. -/
def extract_concept_ids (parseQuery : String → List (String × List String))
    (fetch : Except String Html) : PyResult (Option String) :=
  match extract_concept_ids_body parseQuery fetch with
  | .ok v => .ok v
  | .raised _ => .ok none

/-- The fixed consumer channel id of the API URL. -/
def CONSUMER_CHANNEL_ID : String := "d9a5bc42-4b9c-4976-858a-f159cf99c647"

/-- `construct_api_url(concept_ids, path)`: literal string assembly from
the source. -/
def construct_api_url (concept_ids path : String) : String :=
  "https://api.nike.com/discover/product_wall/v1"
    ++ "/marketplace/IN/language/en-GB"
    ++ "/consumerChannelId/" ++ CONSUMER_CHANNEL_ID
    ++ "?path=" ++ path
    ++ "&attributeIds=" ++ concept_ids
    ++ "&queryType=PRODUCTS&anchor=0&count=100"

/-- `category = " ".join(url.split("/")[-1].split("-")[:-1])`. -/
def categoryOf (url : String) : String :=
  String.intercalate " " ((((url.splitOn "/").getLastD "").splitOn "-").dropLast)

/-- The world a crawler run interacts with: a landing-page fetch per
category URL, an API response sequence per API URL, and the query-string
parser for deeplink paths (`parse_qs` over `urlparse(...).query`).
`extractPath` stands for `extract_path_from_url` (built on the library
call `urlparse`). -/
structure Env where
  page : String → Except String Html
  api : String → List ApiResponse
  parseQuery : String → List (String × List String)
  extractPath : String → String

/-- `process_single_url(url)`: resolve the concept id; a missing id yields
an empty dataframe; otherwise fetch the category through the API URL. An
uncaught raise propagates to the orchestrator. -/
def process_single_url (env : Env) (url : String) : PyResult (List CatRow) :=
  match extract_concept_ids env.parseQuery (env.page url) with
  | .raised e => .raised e
  | .ok none => .ok []
  | .ok (some cid) =>
    .ok (fetch_nike_products
          (env.api (construct_api_url cid (env.extractPath url)))
          (categoryOf url))

/-- The orchestrator's aggregation: one pipeline per configured URL; a
raised pipeline is logged and excluded, and an empty dataframe is not
appended to `all_data`. (The thread pool completes futures in an arbitrary
order; the claims below are insensitive to the order, so the embedding
keeps URL order.) -/
def runAll (env : Env) (urls : List String) : List (List CatRow) :=
  urls.foldr
    (fun url acc =>
      match process_single_url env url with
      | .ok df => if df.isEmpty then acc else df :: acc
      | .raised _ => acc)
    []

/-- The aggregated Snapshot of one run: `pd.concat(all_data)`. -/
def snapshot (env : Env) (urls : List String) : List CatRow :=
  (runAll env urls).flatten

/-! ## Derived definitions used by the proofs -/

/-- The rows appended by the price-history loop, starting from
autoincrement value `n`: one row per input row, all carrying `ts`. -/
def priceRowsFrom (ts : String) : Nat → List InputRow → List PriceRow
  | _, [] => []
  | n, r :: rest =>
    { id := n, product_code := r.productCode, price := r.pricesCurrentPrice, timestamp := ts }
      :: priceRowsFrom ts (n + 1) rest

/-- The `next` fields of a response sequence, in order. -/
def nexts (rs : List ApiResponse) : List (Option String) :=
  rs.map fun r => r.pages.next

/-- Replace the reported `totalResources` of a response, leaving the rest
of the response unchanged. -/
def setTotal (t : Nat) (r : ApiResponse) : ApiResponse :=
  { r with pages := { r.pages with totalResources := t } }

/-- Python truthiness of `i.get("products")`: present and non-empty. -/
def hasProducts (g : Grouping) : Bool :=
  match g.products with
  | some (_ :: _) => true
  | _ => false

/-! ## Concrete instances used by witnesses and counterexamples -/

/-- A first page reporting 250 total resources (3 pages of 100 expected)
that still advertises a `next` page. -/
def pageA : ApiResponse := ⟨⟨250, some "/page2"⟩, []⟩

/-- A second page that omits `next` even though 250 total resources were
reported. -/
def pageB : ApiResponse := ⟨⟨250, none⟩, []⟩

/-- A raw record carrying all eight selected fields. -/
def recFull : Record :=
  [("productCode", "P1"), ("badgeLabel", "Bestseller"), ("copy.title", "Shoe"),
   ("copy.subTitle", "Road running"), ("prices.currency", "INR"),
   ("prices.currentPrice", "12995"), ("pdpUrl.url", "https://nike/p1"),
   ("colorwayImages.portraitURL", "https://img/p1")]

/-- A raw record lacking the `badgeLabel` field. -/
def recNoBadge : Record :=
  [("productCode", "P2"), ("copy.title", "Tee"), ("copy.subTitle", "Cotton"),
   ("prices.currency", "INR"), ("prices.currentPrice", "1995"),
   ("pdpUrl.url", "https://nike/p2"), ("colorwayImages.portraitURL", "https://img/p2")]

/-- A raw record lacking the optional `copy.subTitle` field. -/
def recNoSub : Record :=
  [("productCode", "P3"), ("badgeLabel", "New"), ("copy.title", "Cap"),
   ("prices.currency", "INR"), ("prices.currentPrice", "995"),
   ("pdpUrl.url", "https://nike/p3"), ("colorwayImages.portraitURL", "https://img/p3")]

/-- One empty-products grouping plus one single-product grouping. -/
def payloadW : ApiResponse := ⟨⟨250, none⟩, [⟨some []⟩, ⟨some [recFull]⟩]⟩

/-- A payload whose only record lacks `badgeLabel`. -/
def payloadNoBadge : ApiResponse := ⟨⟨1, none⟩, [⟨some [recNoBadge]⟩]⟩

/-- A payload whose only record lacks the optional `copy.subTitle`. -/
def payloadNoSub : ApiResponse := ⟨⟨1, none⟩, [⟨some [recNoSub]⟩]⟩

/-- A payload mixing a record without `copy.subTitle` and a full record. -/
def payloadMixed : ApiResponse := ⟨⟨2, none⟩, [⟨some [recNoSub]⟩, ⟨some [recFull]⟩]⟩

/-- A fully bindable dataframe row keyed `PC1`. -/
def rowOk : InputRow :=
  ⟨.str "PC1", .str "New", .str "Shoe", .str "Road", .str "INR", .num 12995,
   .str "https://nike/pc1", .str "https://img/pc1", .str "mens shoes"⟩

/-- The same row with a price value the driver cannot bind. -/
def rowBadPrice : InputRow :=
  { rowOk with pricesCurrentPrice := .unsupported }

/-- A `products` row committed by an earlier run for the same key `PC1`. -/
def oldProductRow : ProductRow :=
  ⟨.str "PC1", .str "Old title", .null, .str "womens shoes", .null, .null,
   "2024-01-01 00:00:00"⟩

/-- A database state holding one earlier-run product row. -/
def dbWithOld : DBState := ⟨[oldProductRow], [], 1⟩

/-- A fresh database state. -/
def dbEmpty : DBState := ⟨[], [], 1⟩

/-- A landing page without the deeplink metadata tag. -/
def htmlNoTag : Html := ⟨none⟩

/-- A world where every landing page lacks the metadata tag and the API
serves nothing. -/
def envW : Env :=
  ⟨fun _ => .ok htmlNoTag, fun _ => [], fun _ => [], fun s => s⟩

/-! ## Helper lemmas about the persistence layer -/

/-- If every row passes the guard, the execute loop succeeds and is the
plain left fold of the row effects. -/
lemma execLoop_ok_of_all (gd : InputRow → Bool) (g : InputRow → DBState → DBState)
    (df : List InputRow) :
    ∀ s : DBState, (∀ r ∈ df, gd r = true) →
      execLoop (execStep gd g) df s = .ok (df.foldl (fun s r => g r s) s) := by
  induction df with
  | nil => intro s _; rfl
  | cons r rest ih =>
    intro s hall
    have hr : gd r = true := hall r (List.mem_cons_self r rest)
    simp only [execLoop, execStep, hr, if_true, List.foldl_cons]
    exact ih (g r s) fun x hx => hall x (List.mem_cons_of_mem r hx)

/-- If some row fails the guard, the execute loop raises. -/
lemma execLoop_raises_of_exists (gd : InputRow → Bool) (g : InputRow → DBState → DBState)
    (df : List InputRow) :
    ∀ s : DBState, (∃ r ∈ df, gd r = false) →
      ∃ e, execLoop (execStep gd g) df s = .error e := by
  induction df with
  | nil =>
    intro s h
    obtain ⟨r, hr, _⟩ := h
    exact absurd hr (List.not_mem_nil r)
  | cons r rest ih =>
    intro s h
    by_cases hr : gd r = true
    · simp only [execLoop, execStep, hr, if_true]
      apply ih
      obtain ⟨x, hx, hxf⟩ := h
      rcases List.mem_cons.mp hx with rfl | hx2
      · rw [hr] at hxf; cases hxf
      · exact ⟨x, hx2, hxf⟩
    · have hrf : gd r = false := by simpa using hr
      exact ⟨r, by simp [execLoop, execStep, hrf]⟩

/-- The products upsert loop does not touch `price_history` or the
autoincrement counter. -/
lemma foldl_applyUpsert_frame (dbNow : String) (df : List InputRow) :
    ∀ s : DBState,
      (df.foldl (fun s r => applyUpsert dbNow r s) s).price_history = s.price_history ∧
      (df.foldl (fun s r => applyUpsert dbNow r s) s).next_id = s.next_id := by
  induction df with
  | nil => intro s; exact ⟨rfl, rfl⟩
  | cons r rest ih =>
    intro s
    simpa [applyUpsert] using ih (applyUpsert dbNow r s)

lemma priceRowsFrom_length (ts : String) (df : List InputRow) :
    ∀ n : Nat, (priceRowsFrom ts n df).length = df.length := by
  induction df with
  | nil => intro n; rfl
  | cons r rest ih => intro n; simp [priceRowsFrom, ih]

lemma priceRowsFrom_timestamp (ts : String) (df : List InputRow) :
    ∀ n : Nat, ∀ p ∈ priceRowsFrom ts n df, p.timestamp = ts := by
  induction df with
  | nil => intro n p hp; exact absurd hp (List.not_mem_nil p)
  | cons r rest ih =>
    intro n p hp
    rcases List.mem_cons.mp hp with rfl | hp2
    · rfl
    · exact ih (n + 1) p hp2

/-- The price-history loop appends exactly `priceRowsFrom` and leaves the
products table unchanged. -/
lemma foldl_applyInsertPrice_frame (ts : String) (df : List InputRow) :
    ∀ s : DBState,
      (df.foldl (fun s r => applyInsertPrice ts r s) s).price_history
        = s.price_history ++ priceRowsFrom ts s.next_id df ∧
      (df.foldl (fun s r => applyInsertPrice ts r s) s).products = s.products := by
  induction df with
  | nil => intro s; simp [priceRowsFrom]
  | cons r rest ih =>
    intro s
    have h := ih (applyInsertPrice ts r s)
    simpa [applyInsertPrice, priceRowsFrom, List.append_assoc] using h

/-- When every row is fully bindable, the transaction body succeeds with
the two folds applied in order. -/
lemma runWrites_ok (dbNow ts : String) (df : List InputRow) (s : DBState)
    (hall : ∀ r ∈ df, rowBindable r = true) :
    runWrites dbNow ts df s =
      .ok (df.foldl (fun s r => applyInsertPrice ts r s)
            (df.foldl (fun s r => applyUpsert dbNow r s) s)) := by
  have h1 : ∀ r ∈ df, productsBindable r = true := by
    intro r hr
    have h := hall r hr
    simp [rowBindable, Bool.and_eq_true] at h
    exact h.1
  have h2 : ∀ r ∈ df, priceBindable r = true := by
    intro r hr
    have h := hall r hr
    simp [rowBindable, Bool.and_eq_true] at h
    exact h.2
  unfold runWrites
  rw [execLoop_ok_of_all _ _ _ _ h1]
  exact execLoop_ok_of_all _ _ _ _ h2

/-- A fully bindable run commits the two folds. -/
lemma update_database_ok (dbNow ts : String) (df : List InputRow) (s : DBState)
    (hall : ∀ r ∈ df, rowBindable r = true) :
    update_database dbNow ts df s =
      df.foldl (fun s r => applyInsertPrice ts r s)
        (df.foldl (fun s r => applyUpsert dbNow r s) s) := by
  unfold update_database
  by_cases hdf : df.isEmpty
  · rw [List.isEmpty_iff] at hdf
    subst hdf
    simp
  · simp only [hdf, Bool.false_eq_true, if_false, runWrites_ok dbNow ts df s hall]

/-- Committing a one-row run is one upsert followed by one price insert. -/
lemma update_database_single (dbNow ts : String) (r : InputRow) (s : DBState)
    (hb : rowBindable r = true) :
    update_database dbNow ts [r] s = applyInsertPrice ts r (applyUpsert dbNow r s) := by
  rw [update_database_ok dbNow ts [r] s (by simpa using hb)]
  rfl

lemma conflicts_str_self (c : String) : conflicts (Val.str c) (Val.str c) = true := by
  simp [conflicts]

/-- The products table after committing a single record keyed `c`: all
previously conflicting rows are gone and the fresh row is appended. -/
lemma update_single_products (dbNow ts : String) (r : InputRow) (s : DBState) (c : String)
    (hb : rowBindable r = true) (hc : r.productCode = Val.str c) :
    (update_database dbNow ts [r] s).products
      = s.products.filter (fun p => !(conflicts p.product_code (Val.str c)))
          ++ [mkProductRow dbNow r] := by
  rw [update_database_single dbNow ts r s hb]
  simp [applyInsertPrice, applyUpsert, hc]

/-- After committing a single record keyed `c`, the rows conflicting with
`c` are exactly the freshly written row. -/
lemma update_single_filter_conflicts (dbNow ts : String) (r : InputRow) (s : DBState)
    (c : String) (hb : rowBindable r = true) (hc : r.productCode = Val.str c) :
    (update_database dbNow ts [r] s).products.filter
        (fun p => conflicts p.product_code (Val.str c))
      = [mkProductRow dbNow r] := by
  rw [update_single_products dbNow ts r s c hb hc]
  rw [List.filter_append, List.filter_filter]
  have h1 : ∀ p : ProductRow,
      (conflicts p.product_code (Val.str c) && !(conflicts p.product_code (Val.str c))) = false :=
    fun p => Bool.and_not_self _
  have h2 : conflicts (mkProductRow dbNow r).product_code (Val.str c) = true := by
    simp [mkProductRow, hc, conflicts_str_self]
  simp [h1, h2]

/-! ## Helper lemmas about pagination and normalization -/

/-- If position `k` is the first response without a `next` field, the loop
consumes exactly the responses up to and including position `k`. -/
lemma paginate_eq_take (k : Nat) :
    ∀ rs : List ApiResponse,
      (nexts rs)[k]? = some none →
      (∀ j, j < k → (nexts rs)[j]? ≠ some none) →
      paginate rs = some (rs.take (k + 1)) := by
  induction k with
  | zero =>
    intro rs h0 _
    cases rs with
    | nil => simp [nexts] at h0
    | cons r rest =>
      have hr : r.pages.next = none := by simpa [nexts] using h0
      simp [paginate, hr]
  | succ k ih =>
    intro rs hk hfirst
    cases rs with
    | nil => simp [nexts] at hk
    | cons r rest =>
      have h0 : r.pages.next ≠ none := by
        have h := hfirst 0 (Nat.succ_pos k)
        simpa [nexts] using h
      obtain ⟨v, hv⟩ := Option.ne_none_iff_exists'.mp h0
      have hrest : paginate rest = some (rest.take (k + 1)) := by
        apply ih rest
        · simpa [nexts] using hk
        · intro j hj
          have h := hfirst (j + 1) (Nat.succ_lt_succ hj)
          simpa [nexts] using h
      simp [paginate, hv, hrest]

lemma paginate_map_setTotal (t : Nat) :
    ∀ rs : List ApiResponse,
      paginate (rs.map (setTotal t)) = (paginate rs).map (List.map (setTotal t)) := by
  intro rs
  induction rs with
  | nil => rfl
  | cons r rest ih =>
    cases h : r.pages.next with
    | none => simp [paginate, setTotal, h]
    | some v =>
      have hnext : (setTotal t r).pages.next = some v := by simp [setTotal, h]
      simp only [List.map_cons, paginate, hnext, h, ih]
      cases paginate rest <;> simp

/-- Closed form of the Python expression `ceil(total_products / 100) - 1`:
one less than the rounded-up page count. -/
lemma total_pages_closed (t : Nat) :
    total_pages t = (((t + 99) / 100 : Nat) : Int) - 1 := by
  set q : Nat := (t + 99) / 100 with hq
  have hceil : ⌈(t : ℚ) / 100⌉ = (q : Int) := by
    rw [Int.ceil_eq_iff]
    constructor
    · rw [lt_div_iff₀ (by norm_num : (0 : ℚ) < 100)]
      have hcast : (q : ℚ) * 100 ≤ (t : ℚ) + 99 := by
        have h : q * 100 ≤ t + 99 := by omega
        exact_mod_cast h
      push_cast
      linarith
    · rw [div_le_iff₀ (by norm_num : (0 : ℚ) < 100)]
      have hcast : (t : ℚ) ≤ (q : ℚ) * 100 := by
        have h : t ≤ q * 100 := by omega
        exact_mod_cast h
      push_cast
      linarith
  unfold total_pages
  rw [hceil]

/-- The comprehension keeps exactly one record per truthy grouping. -/
lemma firstVariants_length (payload : ApiResponse) :
    (firstVariants payload).length
      = (payload.productGroupings.filter hasProducts).length := by
  unfold firstVariants
  induction payload.productGroupings with
  | nil => rfl
  | cons g rest ih =>
    cases hg : g.products with
    | none => simpa [List.filterMap_cons, List.filter_cons, hasProducts, hg] using ih
    | some l =>
      cases l with
      | nil => simpa [List.filterMap_cons, List.filter_cons, hasProducts, hg] using ih
      | cons p ps => simpa [List.filterMap_cons, List.filter_cons, hasProducts, hg] using ih

/-! ## Helper lemmas about discovery and the orchestrator -/

/-- A pipeline whose category contributes an empty dataframe can be removed
from the configured URL list without changing the aggregation. -/
lemma runAll_drops_empty (env : Env) (u : String)
    (hu : process_single_url env u = .ok []) :
    ∀ urls : List String, runAll env urls = runAll env (urls.filter (fun v => v != u)) := by
  intro urls
  induction urls with
  | nil => rfl
  | cons v rest ih =>
    have hcons : ∀ (w : String) (ws : List String),
        runAll env (w :: ws)
          = match process_single_url env w with
            | .ok df => if df.isEmpty then runAll env ws else df :: runAll env ws
            | .raised _ => runAll env ws := fun _ _ => rfl
    by_cases hv : v = u
    · subst hv
      rw [hcons, hu, List.filter_cons]
      simp [ih]
    · have hb : (v != u) = true := by simpa using hv
      rw [List.filter_cons]
      simp only [hb, if_true]
      rw [hcons, hcons, ih]

/-- If some row of the dataframe is not fully bindable, the transaction
body raises. -/
lemma runWrites_raises (dbNow ts : String) (df : List InputRow) (s : DBState)
    (h : ∃ r ∈ df, rowBindable r = false) :
    ∃ e, runWrites dbNow ts df s = .error e := by
  obtain ⟨r0, hr0, hbad⟩ := h
  unfold runWrites
  by_cases hp : ∀ r ∈ df, productsBindable r = true
  · rw [execLoop_ok_of_all _ _ _ _ hp]
    have hpr : priceBindable r0 = false := by
      have h1 := hp r0 hr0
      simp [rowBindable, h1] at hbad
      exact hbad
    obtain ⟨e, he⟩ := execLoop_raises_of_exists priceBindable (applyInsertPrice ts) df
      (df.foldl (fun s r => applyUpsert dbNow r s) s) ⟨r0, hr0, hpr⟩
    exact ⟨e, he⟩
  · push_neg at hp
    obtain ⟨x, hx, hxne⟩ := hp
    have hxf : productsBindable x = false := by simpa using hxne
    obtain ⟨e, he⟩ := execLoop_raises_of_exists productsBindable (applyUpsert dbNow) df s
      ⟨x, hx, hxf⟩
    exact ⟨e, by rw [he]⟩

/-! ## Claim theorems -/

/-- Claim C1: the pagination loop of `fetch_nike_products` terminates
exactly when a response omits the `next` field. If position `k` holds the
first response without `next`, then any response sequence with the same
`next` fields — whatever `totalResources` each page reports — is consumed
exactly up to and including position `k`. -/
theorem pagination_stops_at_first_missing_next
    (rs : List ApiResponse) (k : Nat)
    (hnone : (nexts rs)[k]? = some none)
    (hfirst : ∀ j, j < k → (nexts rs)[j]? ≠ some none) :
    ∀ rs2 : List ApiResponse, nexts rs2 = nexts rs →
      paginate rs2 = some (rs2.take (k + 1)) := by
  intro rs2 hmap
  exact paginate_eq_take k rs2 (by rw [hmap]; exact hnone)
    (fun j hj => by rw [hmap]; exact hfirst j hj)

/-- Witness for C1 at the spec's boundary: `totalResources = 250` implies
3 pages of 100, but `next` is absent after the second page — the loop
still stops after consuming exactly the two delivered pages. -/
theorem pagination_stops_witness :
    paginate [pageA, pageB] = some ([pageA, pageB].take 2) :=
  pagination_stops_at_first_missing_next [pageA, pageB] 1 (by decide)
    (by
      intro j hj
      have hj0 : j = 0 := by omega
      subst hj0
      decide)
    [pageA, pageB] rfl

/-- Claim C2: persistence is all-or-nothing per run. If any row-level
write of the run fails, the committed state after `update_database` equals
the state before the run, so rows committed by earlier runs are untouched. -/
theorem update_database_rollback_on_failure (dbNow ts : String)
    (df : List InputRow) (s : DBState)
    (h : ∃ r ∈ df, rowBindable r = false) :
    update_database dbNow ts df s = s := by
  have hne : ¬ (df.isEmpty = true) := by
    obtain ⟨r0, hr0, _⟩ := h
    cases df with
    | nil => exact absurd hr0 (List.not_mem_nil r0)
    | cons a l => simp
  unfold update_database
  rw [if_neg hne]
  obtain ⟨e, he⟩ := runWrites_raises dbNow ts df s h
  rw [he]

/-- Witness for C2: a run containing one unbindable row commits nothing —
the state, which here holds a row committed by an earlier run, is exactly
the prior state. -/
theorem update_database_rollback_witness :
    update_database "2025-06-01 08:00:00" "2025-06-01 08:00:01" [rowOk, rowBadPrice] dbWithOld
      = dbWithOld :=
  update_database_rollback_on_failure _ _ _ _ ⟨rowBadPrice, by simp, by decide⟩

/-- Claim C3: upsert idempotence. Committing the same record in two
successive runs leaves exactly one `products` row for its `product_code`,
while `price_history` gains one row per run — two rows in total. -/
theorem upsert_idempotent_two_runs
    (n1 t1 n2 t2 : String) (r : InputRow) (s : DBState) (c : String)
    (hb : rowBindable r = true) (hc : r.productCode = Val.str c) :
    ((update_database n2 t2 [r] (update_database n1 t1 [r] s)).products.filter
        (fun p => conflicts p.product_code (Val.str c))).length = 1 ∧
    (update_database n2 t2 [r] (update_database n1 t1 [r] s)).price_history.length
      = s.price_history.length + 2 := by
  constructor
  · rw [update_single_filter_conflicts n2 t2 r (update_database n1 t1 [r] s) c hb hc]
    rfl
  · rw [update_database_single n2 t2 r _ hb, update_database_single n1 t1 r s hb]
    simp [applyInsertPrice, applyUpsert]

/-- Witness for C3: persisting `rowOk` twice into a fresh database leaves
one `products` row for `PC1` and two `price_history` rows. -/
theorem upsert_idempotent_witness :
    ((update_database "d1" "t1" [rowOk] (update_database "d0" "t0" [rowOk] dbEmpty)).products.filter
        (fun p => conflicts p.product_code (Val.str "PC1"))).length = 1 ∧
    (update_database "d1" "t1" [rowOk] (update_database "d0" "t0" [rowOk] dbEmpty)).price_history.length
      = dbEmpty.price_history.length + 2 :=
  upsert_idempotent_two_runs "d0" "t0" "d1" "t1" rowOk dbEmpty "PC1" (by decide) (by decide)

/-- Claim C9: for a run that commits, `update_database` appends exactly one
`price_history` row per snapshot row, and every appended row carries the
single run timestamp `ts` computed once per run. -/
theorem update_database_uniform_timestamps (dbNow ts : String)
    (df : List InputRow) (s : DBState)
    (hall : ∀ r ∈ df, rowBindable r = true) :
    (update_database dbNow ts df s).price_history.length
      = s.price_history.length + df.length ∧
    ∀ p ∈ (update_database dbNow ts df s).price_history.drop s.price_history.length,
      p.timestamp = ts := by
  rw [update_database_ok dbNow ts df s hall]
  obtain ⟨hph, hnid⟩ := foldl_applyUpsert_frame dbNow df s
  obtain ⟨hfold, _⟩ :=
    foldl_applyInsertPrice_frame ts df (df.foldl (fun s r => applyUpsert dbNow r s) s)
  rw [hfold, hph, hnid]
  constructor
  · simp [priceRowsFrom_length]
  · intro p hp
    rw [List.drop_left] at hp
    exact priceRowsFrom_timestamp ts df s.next_id p hp

/-- Witness for C9: a two-row snapshot adds exactly two `price_history`
rows, both stamped with the run timestamp. -/
theorem uniform_timestamps_witness :
    (update_database "d0" "ts0" [rowOk, rowOk] dbEmpty).price_history.length
      = dbEmpty.price_history.length + [rowOk, rowOk].length ∧
    ∀ p ∈ (update_database "d0" "ts0" [rowOk, rowOk] dbEmpty).price_history.drop
        dbEmpty.price_history.length, p.timestamp = "ts0" :=
  update_database_uniform_timestamps "d0" "ts0" [rowOk, rowOk] dbEmpty
    (by
      intro r hr
      simp at hr
      subst hr
      decide)

/-- Claim C10: `INSERT OR REPLACE` replaces the entire row for an existing
`product_code`, and because `created_at` is omitted from the insert column
list it is reset to the database's current time `dbNow`: after re-observing
the product, the only row for that code is the freshly built one, whose
`created_at` is `dbNow` rather than the previously stored value. -/
theorem upsert_resets_created_at (dbNow ts : String) (r : InputRow) (s : DBState)
    (c : String) (p0 : ProductRow)
    (hb : rowBindable r = true) (hc : r.productCode = Val.str c)
    (hp0 : p0 ∈ s.products) (hconf : conflicts p0.product_code (Val.str c) = true) :
    (update_database dbNow ts [r] s).products.filter
        (fun p => conflicts p.product_code (Val.str c)) = [mkProductRow dbNow r] ∧
    (mkProductRow dbNow r).created_at = dbNow :=
  ⟨update_single_filter_conflicts dbNow ts r s c hb hc, rfl⟩

/-- Witness for C10: re-observing `PC1`, first stored with
`created_at = "2024-01-01 00:00:00"`, leaves one row whose `created_at` is
the new database time. -/
theorem upsert_resets_created_at_witness :
    (update_database "2025-06-01 09:00:00" "t9" [rowOk] dbWithOld).products.filter
        (fun p => conflicts p.product_code (Val.str "PC1"))
      = [mkProductRow "2025-06-01 09:00:00" rowOk] ∧
    (mkProductRow "2025-06-01 09:00:00" rowOk).created_at = "2025-06-01 09:00:00" :=
  upsert_resets_created_at "2025-06-01 09:00:00" "t9" rowOk dbWithOld "PC1" oldProductRow
    (by decide) (by decide) (by decide) (by decide)

/-- Counterexample for C4: on a transport failure (the HTTP request itself
raises), `extract_concept_ids` does not raise — the surrounding
`try/except` returns the "no identifier" signal instead. -/
theorem extract_concept_ids_swallows_transport_error :
    extract_concept_ids (fun _ => []) (Except.error "ConnectionError") = .ok none := rfl

/-- Claim C4 (amended): the Discovery Resolver never throws at all. For
every input it returns a value, and on transport failure that value is the
"no identifier" signal `none`, exactly as for missing data. -/
theorem extract_concept_ids_never_raises
    (parseQuery : String → List (String × List String)) (fetch : Except String Html) :
    (∃ v, extract_concept_ids parseQuery fetch = .ok v) ∧
    ∀ e, fetch = .error e → extract_concept_ids parseQuery fetch = .ok none := by
  constructor
  · cases hb : extract_concept_ids_body parseQuery fetch with
    | ok v => exact ⟨v, by simp [extract_concept_ids, hb]⟩
    | raised e => exact ⟨none, by simp [extract_concept_ids, hb]⟩
  · intro e he
    subst he
    rfl

/-- Witness for the amended C4: a concrete timeout yields the value
`none`, not a raise. -/
theorem extract_never_raises_witness :
    extract_concept_ids (fun _ => [("q", ["1"])]) (Except.error "timeout") = .ok none :=
  (extract_concept_ids_never_raises (fun _ => [("q", ["1"])]) (Except.error "timeout")).2
    "timeout" rfl

/-- Claim C5: a category URL whose landing page lacks the metadata tag (or
whose tag's query lacks `conceptid`) makes Discovery return "no
identifier"; that category contributes an empty dataframe, the aggregated
Snapshot equals the one built without that URL, and every other category's
pipeline result is unchanged compared to a world where that page was
intact. -/
theorem missing_tag_category_isolated
    (env env2 : Env) (u : String) (urls : List String) (p : Html)
    (hq : env2.parseQuery = env.parseQuery)
    (hx : env2.extractPath = env.extractPath)
    (hapi : env2.api = env.api)
    (hagree : ∀ v, v ≠ u → env2.page v = env.page v)
    (hp : env2.page u = .ok p)
    (hmiss : p.metaTag = none ∨
      ∃ tag c, p.metaTag = some tag ∧ tag.content = some c ∧ c ≠ "" ∧
        ((env2.parseQuery c).lookup "conceptid") = none) :
    process_single_url env2 u = .ok [] ∧
    (∀ v, v ≠ u → process_single_url env2 v = process_single_url env v) ∧
    snapshot env2 urls = snapshot env2 (urls.filter (fun v => v != u)) := by
  have hext : extract_concept_ids env2.parseQuery (env2.page u) = .ok none := by
    rw [hp]
    rcases hmiss with h | ⟨tag, c, h1, h2, h3, h4⟩
    · simp [extract_concept_ids, extract_concept_ids_body, h]
    · simp [extract_concept_ids, extract_concept_ids_body, h1, h2, h3, h4]
  have h1 : process_single_url env2 u = .ok [] := by
    simp [process_single_url, hext]
  refine ⟨h1, ?_, ?_⟩
  · intro v hv
    unfold process_single_url
    rw [hagree v hv, hq, hx, hapi]
  · exact congrArg List.flatten (runAll_drops_empty env2 u h1 urls)

/-- Witness for C5: in a world where every landing page lacks the tag, the
first URL contributes nothing and removing it leaves the snapshot
unchanged. -/
theorem missing_tag_witness :
    process_single_url envW "https://www.nike.com/in/w/mens-shoes-nik1zy7ok" = .ok [] ∧
    (∀ v, v ≠ "https://www.nike.com/in/w/mens-shoes-nik1zy7ok" →
      process_single_url envW v = process_single_url envW v) ∧
    snapshot envW ["https://www.nike.com/in/w/mens-shoes-nik1zy7ok",
        "https://www.nike.com/in/w/kids-shoes-v4dhzy7ok"]
      = snapshot envW
          (["https://www.nike.com/in/w/mens-shoes-nik1zy7ok",
            "https://www.nike.com/in/w/kids-shoes-v4dhzy7ok"].filter
            (fun v => v != "https://www.nike.com/in/w/mens-shoes-nik1zy7ok")) :=
  missing_tag_category_isolated envW envW "https://www.nike.com/in/w/mens-shoes-nik1zy7ok"
    ["https://www.nike.com/in/w/mens-shoes-nik1zy7ok",
     "https://www.nike.com/in/w/kids-shoes-v4dhzy7ok"]
    htmlNoTag rfl rfl rfl (fun _ _ => rfl) rfl (Or.inl rfl)

/-- Counterexample for C6: at `totalResources = 250` the code computes
`total_pages = 2`, one less than the ceiling `⌈250 / 100⌉ = 3` the claim
states. -/
theorem total_pages_off_by_one_at_250 :
    total_pages 250 = 2 ∧ (⌈(250 : ℚ) / 100⌉ : Int) = 3 := by
  have h : total_pages 250 = (((250 + 99) / 100 : Nat) : Int) - 1 := total_pages_closed 250
  norm_num at h
  refine ⟨h, ?_⟩
  have h2 : total_pages 250 = ⌈(250 : ℚ) / 100⌉ - 1 := rfl
  omega

/-- Claim C6 (amended): the code computes `total_pages` as the ceiling of
`totalResources / 100` minus one, and the value feeds only the progress
bar: the pagination loop consumes the same number of pages whatever
`totalResources` every response reports. -/
theorem total_pages_closed_form_not_used_for_termination (t : Nat) :
    total_pages t = (((t + 99) / 100 : Nat) : Int) - 1 ∧
    ∀ (t2 : Nat) (rs : List ApiResponse),
      (paginate (rs.map (setTotal t2))).map List.length
        = (paginate rs).map List.length := by
  refine ⟨total_pages_closed t, ?_⟩
  intro t2 rs
  rw [paginate_map_setTotal]
  cases paginate rs <;> simp

/-- Counterexample for C7: a payload with a single non-empty grouping whose
only record lacks the `badgeLabel` column makes the column selection raise,
so the page yields zero rows even though one grouping has a non-empty
products list. -/
theorem normalizer_zero_rows_despite_nonempty_grouping :
    (payloadNoBadge.productGroupings.filter hasProducts).length = 1 ∧
    parse_response payloadNoBadge = [] := by decide

/-- Claim C7 (amended): provided every selected column occurs in at least
one kept record, the Normalizer emits exactly one row per grouping with a
non-empty products list — the first variant of each — and silently drops
groupings whose products list is empty or absent. -/
theorem normalizer_first_variant_rows (payload : ApiResponse)
    (hcols : requiredColumns.all (columnPresent (firstVariants payload)) = true) :
    parse_response payload = [(firstVariants payload).map mkParsedRow] ∧
    ((firstVariants payload).map mkParsedRow).length
      = (payload.productGroupings.filter hasProducts).length := by
  constructor
  · simp [parse_response, hcols]
  · rw [List.length_map]
    exact firstVariants_length payload

/-- Witness for C7: one empty-products grouping plus one single-product
grouping with all fields yields exactly one output row. -/
theorem normalizer_first_variant_witness :
    parse_response payloadW = [(firstVariants payloadW).map mkParsedRow] ∧
    ((firstVariants payloadW).map mkParsedRow).length
      = (payloadW.productGroupings.filter hasProducts).length :=
  normalizer_first_variant_rows payloadW (by decide)

/-- Counterexample for C8: a payload whose only record lacks the optional
`copy.subTitle` does not yield a row with a null subtitle — the whole page
fails normalization and yields zero rows. -/
theorem normalizer_missing_subtitle_drops_page :
    (firstVariants payloadNoSub).length = 1 ∧
    parse_response payloadNoSub = [] := by decide

/-- Claim C8 (amended): provided every selected column occurs in at least
one record of the page, a record missing the optional `copy.subTitle`
still yields its row — with `none` in that column — and all records of the
page are produced; but a field absent from every record fails the whole
page. -/
theorem normalizer_missing_field_yields_null (payload : ApiResponse)
    (hcols : requiredColumns.all (columnPresent (firstVariants payload)) = true) :
    parse_response payload = [(firstVariants payload).map mkParsedRow] ∧
    ∀ r ∈ firstVariants payload, r.lookup "copy.subTitle" = none →
      (mkParsedRow r).copySubTitle = none := by
  refine ⟨by simp [parse_response, hcols], ?_⟩
  intro r _ h
  simp [mkParsedRow, h]

/-- Witness for the amended C8: a page mixing a record without
`copy.subTitle` and a full record produces both rows. -/
theorem normalizer_missing_field_witness :
    parse_response payloadMixed = [(firstVariants payloadMixed).map mkParsedRow] ∧
    ∀ r ∈ firstVariants payloadMixed, r.lookup "copy.subTitle" = none →
      (mkParsedRow r).copySubTitle = none :=
  normalizer_missing_field_yields_null payloadMixed (by decide)

end NikeCrawler
